import Mathlib

/-!
Verification development for the mcp-sentry-ts repository.

The repository's core is (a) a rendering engine (`BaseFormatter`,
`ProjectFormatter`, `IssueFormatter`) turning loosely-typed JSON payloads into
markdown / plain-text reports, and (b) the `extract_issue_context_data`
handler resolving caller-named fields through an ordered list of fallback
sources.  This file shallowly embeds those pieces, translated directly from
the TypeScript source, and proves/refutes the frozen claims about them.

Modelling conventions (JS semantics):
  * JSON values are the inductive `Val`; JS objects are association lists
    (`Obj`) with unique keys in insertion order; `Object.assign` overwrites an
    existing key in place and appends new keys (`jsAssign`).
  * `undefined`/absent is `Option.none`.  JS `null` is collapsed into `none`
    where only truthiness matters (both are falsy).
  * A JS string test `x || d` treats the empty string as falsy (`jsOrD`);
    a template `${x}` renders `undefined` as the literal "undefined"
    (`tmplStr`); `Array.prototype.join` renders `undefined` as "" (`cellStr`).
-/

/-- JSON-like runtime value (the shapes the formatters and extractor touch). -/
inductive Val : Type where
  | str (s : String) : Val
  | num (n : Int) : Val
  | bool (b : Bool) : Val
  | null : Val
  | obj (fields : List (String × Val)) : Val
  | arr (elems : List Val) : Val
deriving Repr

/-- A JS object: own enumerable properties in insertion order. -/
abbrev Obj := List (String × Val)

/-- Property read, `o[k]`: first binding wins (keys are unique in JS objects). -/
def Obj.lookup : Obj → String → Option Val
  | [], _ => none
  | (k, v) :: rest, f => if f = k then some v else Obj.lookup rest f

/-- View a value as an object (non-objects expose no string-keyed fields here). -/
def Val.asObj : Val → Option Obj
  | .obj o => some o
  | _ => none

/-- One `target[k] = v` store: overwrite in place, else append (JS key order). -/
def setKey (o : Obj) (kv : String × Val) : Obj :=
  if o.any (fun p => p.1 = kv.1) then
    o.map (fun p => if p.1 = kv.1 then kv else p)
  else
    o ++ [kv]

/-- `Object.assign(target, src)`: copy every own property of `src` in order. -/
def jsAssign (target : Obj) (src : Obj) : Obj :=
  src.foldl setKey target

mutual
/-- JS `String(v)` coercion (default `toString`, no overrides). -/
def jsToString : Val → String
  | .str s => s
  | .num n => toString n
  | .bool b => if b then "true" else "false"
  | .null => "null"
  | .obj _ => "[object Object]"
  | .arr vs => jsArrToString vs

/-- `Array.prototype.toString`: elements joined by ",", null rendered empty. -/
def jsArrToString : List Val → String
  | [] => ""
  | [v] => jsElemToString v
  | v :: rest => jsElemToString v ++ "," ++ jsArrToString rest

/-- One array element under `Array.prototype.join`: null becomes "". -/
def jsElemToString : Val → String
  | .null => ""
  | v => jsToString v
end

/-- JS truthiness of an optional string (undefined and "" are falsy). -/
def truthyStr : Option String → Bool
  | none => false
  | some s => s ≠ ""

/-- `a || d` for a string-or-undefined `a` and string default `d`. -/
def jsOrD (a : Option String) (d : String) : String :=
  match a with
  | some s => if s = "" then d else s
  | none => d

/-- `a || b` keeping the optional result (first truthy operand, else `b`). -/
def jsOrOpt (a b : Option String) : Option String :=
  if truthyStr a then a else b

/-- `${x}` in a template literal: undefined renders as "undefined". -/
def tmplStr : Option String → String
  | some s => s
  | none => "undefined"

/-- `${n}` for a number-or-undefined. -/
def tmplInt : Option Int → String
  | some n => toString n
  | none => "undefined"

/-- An array cell under `Array.prototype.join`: undefined renders as "". -/
def cellStr : Option String → String
  | some s => s
  | none => ""

/-- `s.repeat(n)` for strings. -/
def repeatStr (s : String) (n : Nat) : String :=
  String.join (List.replicate n s)

/-- `Array.prototype.slice(-n)`: the suffix of length `min n length`. -/
def takeLast {α : Type} (n : Nat) (l : List α) : List α :=
  l.drop (l.length - n)

/- ------------------------------------------------------------------ -/
/- baseFormatter.ts                                                    -/
/- ------------------------------------------------------------------ -/

/-- `FormatType` from baseFormatter.ts. -/
inductive FormatType : Type where
  | markdown : FormatType
  | plain : FormatType
deriving DecidableEq, Repr

/-- `ViewType` from baseFormatter.ts. -/
inductive ViewType : Type where
  | summary : ViewType
  | detailed : ViewType
deriving DecidableEq, Repr

/-- `FormatOptions` from baseFormatter.ts. -/
structure FormatOptions : Type where
  format : FormatType
  view : ViewType
deriving DecidableEq, Repr

/-- `BaseFormatter.isMarkdown`. -/
def isMarkdown (opts : FormatOptions) : Bool :=
  opts.format = FormatType.markdown

/-- `BaseFormatter.isDetailed`. -/
def isDetailed (opts : FormatOptions) : Bool :=
  opts.view = ViewType.detailed

/-- `BaseFormatter.createHeader`. -/
def createHeader (opts : FormatOptions) (title : String) (level : Nat := 1) : String :=
  if isMarkdown opts then
    repeatStr "#" level ++ " " ++ title ++ "\n\n"
  else
    title ++ "\n\n"

/-- `BaseFormatter.createTable`.  Markdown: header row, dash separator row,
then data rows; plain: only the data rows (the source's plain branch iterates
over `rows` alone and never emits `headers`). -/
def createTable (opts : FormatOptions) (headers : List String) (rows : List (List String)) : String :=
  if isMarkdown opts then
    let table := "| " ++ String.intercalate " | " headers ++ " |\n"
    let table := table ++ "|" ++ String.intercalate "|" (headers.map (fun _ => "----")) ++ "|\n"
    let table := rows.foldl (fun acc row => acc ++ "| " ++ String.intercalate " | " row ++ " |\n") table
    table ++ "\n"
  else
    let result := rows.foldl (fun acc row => acc ++ String.intercalate " | " row ++ "\n") ""
    result ++ "\n"

/-- `BaseFormatter.createList` (both format branches of the source are
identical, kept as a single expression). -/
def createList (opts : FormatOptions) (items : List String) (ordered : Bool := false) : String :=
  let _ := opts
  String.intercalate "\n"
    (items.enum.map (fun p =>
      if ordered then toString (p.1 + 1) ++ ". " ++ p.2 else "- " ++ p.2)) ++ "\n\n"

/-- `BaseFormatter.createCodeBlock`. -/
def createCodeBlock (opts : FormatOptions) (code : String) (language : String := "") : String :=
  if isMarkdown opts then
    "```" ++ language ++ "\n" ++ code ++ "\n```\n\n"
  else
    code ++ "\n\n"

/-- `BaseFormatter.createLink`. -/
def createLink (opts : FormatOptions) (text url : String) : String :=
  if isMarkdown opts then
    "[" ++ text ++ "](" ++ url ++ ")"
  else
    text ++ ": " ++ url

/-- `BaseFormatter.createBold`. -/
def createBold (opts : FormatOptions) (text : String) : String :=
  if isMarkdown opts then "**" ++ text ++ "**" else text

/-- `BaseFormatter.createSeparator`. -/
def createSeparator (opts : FormatOptions) : String :=
  if isMarkdown opts then "\n---\n\n" else "\n" ++ repeatStr "-" 50 ++ "\n\n"

/- ------------------------------------------------------------------ -/
/- Date rendering: `new Date(seconds * 1000).toISOString()`            -/
/- ------------------------------------------------------------------ -/

/-- Zero-pad a natural number to (at least) two digits. -/
def pad2 (n : Nat) : String :=
  if n < 10 then "0" ++ toString n else toString n

/-- Zero-pad a natural number to (at least) four digits. -/
def pad4 (n : Nat) : String :=
  if n < 10 then "000" ++ toString n
  else if n < 100 then "00" ++ toString n
  else if n < 1000 then "0" ++ toString n
  else toString n

/-- Zero-pad a natural number to (at least) six digits. -/
def pad6 (n : Nat) : String :=
  if n < 100000 then "0" ++ pad4 (n / 10) ++ toString (n % 10) else toString n

/-- Proleptic-Gregorian civil date from days since 1970-01-01
(standard era/day-of-era computation). -/
def civilFromDays (z0 : Int) : Int × Nat × Nat :=
  let z := z0 + 719468
  let era := Int.fdiv z 146097
  let doe := (z - era * 146097).toNat
  let yoe := (doe - doe / 1460 + doe / 36524 - doe / 146096) / 365
  let doy := doe - (365 * yoe + yoe / 4 - yoe / 100)
  let mp := (5 * doy + 2) / 153
  let d := doy - (153 * mp + 2) / 5 + 1
  let m := if mp < 10 then mp + 3 else mp - 9
  (era * 400 + (yoe : Int) + (if m ≤ 2 then 1 else 0), m, d)

/-- `new Date(secs * 1000).toISOString()` for an integral unix-seconds value
(milliseconds part is always "000"; years outside 0..9999 use the expanded
signed six-digit form). -/
def epochToISO (secs : Int) : String :=
  let days := Int.fdiv secs 86400
  let sod := (secs - days * 86400).toNat
  let ymd := civilFromDays days
  let y := ymd.1
  let yearStr :=
    if 0 ≤ y ∧ y ≤ 9999 then pad4 y.toNat
    else (if y < 0 then "-" else "+") ++ pad6 y.natAbs
  yearStr ++ "-" ++ pad2 ymd.2.1 ++ "-" ++ pad2 ymd.2.2 ++ "T" ++
    pad2 (sod / 3600) ++ ":" ++ pad2 (sod % 3600 / 60) ++ ":" ++ pad2 (sod % 60) ++ ".000Z"

/- ------------------------------------------------------------------ -/
/- projectFormatter.ts                                                 -/
/- ------------------------------------------------------------------ -/

/-- A team reference inside a project (`{ name }`). -/
structure Team : Type where
  name : String
deriving DecidableEq, Repr

/-- `SentryProject` as the formatter consumes it. -/
structure SentryProject : Type where
  id : String
  name : String
  slug : String
  platform : Option String
  teams : List Team
  environments : Option (List String)
  features : Option (List String)
deriving DecidableEq, Repr

/-- The column headers of the detailed markdown project table. -/
def projectTableHeaders : List String :=
  ["ID", "Name", "Slug", "Platform", "Teams", "Environments", "Features"]

/-- One row of the detailed markdown project table. -/
def projectRow (project : SentryProject) : List String :=
  [project.id, project.name, project.slug,
   jsOrD project.platform "N/A",
   String.intercalate ", " (project.teams.map Team.name),
   jsOrD (project.environments.map (String.intercalate ", ")) "None",
   jsOrD (project.features.map (String.intercalate ", ")) "None"]

/-- `ProjectFormatter.formatDetailed`. -/
def projectFormatDetailed (opts : FormatOptions) (projects : List SentryProject) : String :=
  let output := createHeader opts "Sentry Projects"
  let output :=
    if isMarkdown opts then
      output ++ createTable opts projectTableHeaders (projects.map projectRow)
    else
      projects.foldl (fun acc project =>
        acc ++ "ID: " ++ project.id ++ "\n" ++
        "Name: " ++ project.name ++ "\n" ++
        "Slug: " ++ project.slug ++ "\n" ++
        "Platform: " ++ jsOrD project.platform "N/A" ++ "\n" ++
        "Teams: " ++ String.intercalate ", " (project.teams.map Team.name) ++ "\n" ++
        "Environments: " ++ jsOrD (project.environments.map (String.intercalate ", ")) "None" ++ "\n" ++
        "Features: " ++ jsOrD (project.features.map (String.intercalate ", ")) "None" ++ "\n\n") output
  output ++ createHeader opts "Summary" 2 ++ "Total Projects: " ++ toString projects.length ++ "\n"

/-- `ProjectFormatter.formatSummary`. -/
def projectFormatSummary (opts : FormatOptions) (projects : List SentryProject) : String :=
  let output := createHeader opts "Sentry Projects"
  let items := projects.map (fun project =>
    createBold opts project.name ++ " (" ++ project.slug ++ "): ID " ++ project.id)
  output ++ createList opts items ++ "Total Projects: " ++ toString projects.length

/-- `ProjectFormatter.formatData`. -/
def projectFormatData (opts : FormatOptions) (projects : List SentryProject) : String :=
  if isDetailed opts then projectFormatDetailed opts projects
  else projectFormatSummary opts projects

/- ------------------------------------------------------------------ -/
/- issueFormatter.ts — issue lists                                     -/
/- ------------------------------------------------------------------ -/

/-- `SentryProjectIssue` as the issue-list formatter consumes it
(`stats24h` is `issue.stats?.["24h"]`). -/
structure SentryProjectIssue : Type where
  id : String
  shortId : String
  title : String
  status : String
  level : String
  firstSeen : String
  lastSeen : String
  count : String
  userCount : Int
  culprit : String
  permalink : String
  stats24h : Option (List (Int × Int))
deriving DecidableEq, Repr

/-- The 24-hour stats block shared by the issue formatters (header at the
given level, then a timestamp/count table or plain lines). -/
def stats24hBlock (opts : FormatOptions) (level : Nat) (stats : Option (List (Int × Int))) : String :=
  match stats with
  | none => ""
  | some buckets =>
    if buckets.length > 0 then
      createHeader opts "24-Hour Event Distribution" level ++
      (if isMarkdown opts then
        createTable opts ["Timestamp", "Count"]
          (buckets.map (fun b => [epochToISO b.1, toString b.2]))
      else
        buckets.foldl (fun acc b => acc ++ epochToISO b.1 ++ ": " ++ toString b.2 ++ "\n") "" ++ "\n")
    else ""

/-- `IssueFormatter.formatDetailedIssueList`. -/
def formatDetailedIssueList (opts : FormatOptions) (issues : List SentryProjectIssue)
    (projectSlug : String) : String :=
  let output := createHeader opts ("Issues for Project: " ++ projectSlug)
  let output :=
    if isMarkdown opts then
      output ++ createTable opts
        ["ID", "Short ID", "Title", "Status", "Level", "First Seen", "Last Seen", "Events", "Users"]
        (issues.map (fun issue =>
          [issue.id, issue.shortId, issue.title, issue.status, issue.level,
           issue.firstSeen, issue.lastSeen, issue.count, toString issue.userCount]))
    else output
  let output := output ++ createHeader opts "Issue Details" 2
  let output := issues.enum.foldl (fun acc p =>
    let issue := p.2
    acc ++ createHeader opts ("Issue " ++ toString (p.1 + 1) ++ ": " ++ issue.title) 3 ++
    createList opts
      [createBold opts "ID" ++ ": " ++ issue.id,
       createBold opts "Short ID" ++ ": " ++ issue.shortId,
       createBold opts "Status" ++ ": " ++ issue.status,
       createBold opts "Level" ++ ": " ++ issue.level,
       createBold opts "First Seen" ++ ": " ++ issue.firstSeen,
       createBold opts "Last Seen" ++ ": " ++ issue.lastSeen,
       createBold opts "Event Count" ++ ": " ++ issue.count,
       createBold opts "User Count" ++ ": " ++ toString issue.userCount,
       createBold opts "Culprit" ++ ": " ++ issue.culprit,
       createBold opts "Permalink" ++ ": " ++ createLink opts issue.permalink issue.permalink] ++
    stats24hBlock opts 4 issue.stats24h ++
    createSeparator opts) output
  output ++ createHeader opts "Summary" 2 ++ "Total Issues: " ++ toString issues.length ++ "\n"

/-- `IssueFormatter.formatSummaryIssueList`. -/
def formatSummaryIssueList (opts : FormatOptions) (issues : List SentryProjectIssue)
    (projectSlug : String) : String :=
  let output := createHeader opts ("Issues for Project: " ++ projectSlug)
  let items := issues.map (fun issue =>
    createBold opts issue.title ++ " (" ++ issue.shortId ++ ")" ++
    "\n  - " ++ "Status: " ++ issue.status ++ ", Level: " ++ issue.level ++
      ", Events: " ++ issue.count ++
    "\n  - " ++ "First seen: " ++ issue.firstSeen ++ ", Last seen: " ++ issue.lastSeen)
  output ++ createList opts items ++ "Total Issues: " ++ toString issues.length

/-- `IssueFormatter.formatIssueList`. -/
def formatIssueList (opts : FormatOptions) (issues : List SentryProjectIssue)
    (projectSlug : String) : String :=
  if issues.length = 0 then
    createHeader opts ("Issues for Project: " ++ projectSlug) ++
    "No issues found for this project.\n"
  else if isDetailed opts then formatDetailedIssueList opts issues projectSlug
  else formatSummaryIssueList opts issues projectSlug

/- ------------------------------------------------------------------ -/
/- JSON.stringify(value, null, 2)                                      -/
/- ------------------------------------------------------------------ -/

/-- `n` spaces. -/
def spaces (n : Nat) : String :=
  repeatStr " " n

/-- A hexadecimal digit. -/
def hexDigit (n : Nat) : String :=
  (["0", "1", "2", "3", "4", "5", "6", "7", "8", "9", "a", "b", "c", "d", "e", "f"].getD n "0")

/-- JSON escaping of a single character. -/
def jsonEscapeChar (c : Char) : String :=
  if c = '"' then "\\\""
  else if c = '\\' then "\\\\"
  else if c = '\n' then "\\n"
  else if c = '\r' then "\\r"
  else if c = '\t' then "\\t"
  else if c.toNat < 32 then "\\u00" ++ hexDigit (c.toNat / 16) ++ hexDigit (c.toNat % 16)
  else String.singleton c

/-- A JSON string literal. -/
def jsonQuote (s : String) : String :=
  "\"" ++ String.join (s.data.map jsonEscapeChar) ++ "\""

mutual
/-- `JSON.stringify(v, null, 2)` at the given item indentation. -/
def jsonStringify (ind : Nat) : Val → String
  | .str s => jsonQuote s
  | .num n => toString n
  | .bool b => if b then "true" else "false"
  | .null => "null"
  | .obj kvs => jsonObj ind kvs
  | .arr vs => jsonArr ind vs
termination_by v => (sizeOf v, 0)
decreasing_by
  all_goals simp_wf
  all_goals exact Prod.Lex.left _ _ (by omega)

/-- Render an object body at the given indentation. -/
def jsonObj (ind : Nat) (kvs : List (String × Val)) : String :=
  if kvs.isEmpty then "\x7b\x7d"
  else
    "\x7b\n" ++ String.intercalate ",\n" (jsonObjItems (ind + 2) kvs) ++ "\n" ++
    spaces ind ++ "\x7d"
termination_by (sizeOf kvs, 1)
decreasing_by
  exact Prod.Lex.right _ (by omega)

/-- The rendered `"key": value` lines of an object. -/
def jsonObjItems (ind : Nat) : List (String × Val) → List String
  | [] => []
  | (k, v) :: rest => (spaces ind ++ jsonQuote k ++ ": " ++ jsonStringify ind v) ::
                      jsonObjItems ind rest
termination_by l => (sizeOf l, 0)
decreasing_by
  all_goals simp_wf
  all_goals exact Prod.Lex.left _ _ (by omega)

/-- Render an array body at the given indentation. -/
def jsonArr (ind : Nat) (vs : List Val) : String :=
  if vs.isEmpty then "[]"
  else
    "[\n" ++ String.intercalate ",\n" (jsonArrItems (ind + 2) vs) ++ "\n" ++
    spaces ind ++ "]"
termination_by (sizeOf vs, 1)
decreasing_by
  exact Prod.Lex.right _ (by omega)

/-- The rendered element lines of an array. -/
def jsonArrItems (ind : Nat) : List Val → List String
  | [] => []
  | v :: rest => (spaces ind ++ jsonStringify ind v) :: jsonArrItems ind rest
termination_by l => (sizeOf l, 0)
decreasing_by
  all_goals simp_wf
  all_goals exact Prod.Lex.left _ _ (by omega)
end

/- ------------------------------------------------------------------ -/
/- issueFormatter.ts — events                                          -/
/- ------------------------------------------------------------------ -/

/-- A `{key, value}` tag. -/
structure Tag : Type where
  key : String
  value : String
deriving DecidableEq, Repr

/-- A stack frame as `formatSingleEvent` consumes it (`context` is the list
of `[lineNumber, text]` source-context pairs; absent and empty collapse). -/
structure Frame : Type where
  filename : Option String
  lineNo : Option Int
  function : Option String
  inApp : Bool
  context : List (Int × String)
  vars : Option Obj
deriving Repr

/-- `entry.data` of a stacktrace entry. -/
structure EntryData : Type where
  frames : Option (List Frame)
deriving Repr

/-- An element of `event.entries`. -/
structure Entry : Type where
  type : String
  data : Option EntryData
deriving Repr

/-- `event.user`. -/
structure UserInfo : Type where
  id : Option String
  email : Option String
  username : Option String
  ip_address : Option String
deriving DecidableEq, Repr

/-- An event as the issue formatter consumes it (`metadataTitle` is
`event.metadata?.title`, `eventType` is `event["event.type"]`). -/
structure SEvent : Type where
  id : Option String
  eventID : Option String
  title : Option String
  metadataTitle : Option String
  platform : Option String
  dateCreated : Option String
  location : Option String
  eventType : Option String
  type : Option String
  culprit : Option String
  tags : Option (List Tag)
  user : Option UserInfo
  context : Option Obj
  contexts : Option Obj
  extra : Option Obj
  entries : Option (List Entry)
deriving Repr

/-- The shared `entries → find stacktrace → data → frames` probe of
`formatSingleEvent` (both the additional-data fallback and the stack-trace
section recompute exactly this chain). -/
def stacktraceFrames (ev : SEvent) : Option (List Frame) :=
  match ev.entries with
  | none => none
  | some entries =>
    if entries.length > 0 then
      match entries.find? (fun entry => entry.type == "stacktrace") with
      | some entry =>
        match entry.data with
        | some d => d.frames
        | none => none
      | none => none
    else none

/-- `if (source) Object.assign(target, source)` for an optional object. -/
def optAssign (d : Obj) (o : Option Obj) : Obj :=
  match o with
  | some c => jsAssign d c
  | none => d

/-- `if (source && Object.keys(source).length > 0) Object.assign(target,
source)` for an optional object. -/
def guardedAssign (d : Obj) (o : Option Obj) : Obj :=
  match o with
  | some c => if c.length > 0 then jsAssign d c else d
  | none => d

/-- The `frameWithVars` probe: `frames.slice().reverse().find(frame =>
frame.vars && Object.keys(frame.vars).length > 0)`, yielding that frame's
`vars` map (the found frame's `vars` is non-empty by the predicate; a frame
without one yields nothing, mirroring the source's re-check). -/
def lastFrameVars (ev : SEvent) : Option Obj :=
  match stacktraceFrames ev with
  | none => none
  | some frames =>
    match frames.reverse.find? (fun frame =>
        match frame.vars with
        | some vs => !vs.isEmpty
        | none => false) with
    | none => none
    | some frameWithVars => frameWithVars.vars

/-- The additional-data fallback: merge `vars.context`, `vars.record.context`
and `vars.record.extra` of the last frame (scanning from the end) whose
`vars` map is non-empty into `d`. -/
def framesVarsFallback (d : Obj) (ev : SEvent) : Obj :=
  match lastFrameVars ev with
  | none => d
  | some vs =>
    let d := optAssign d ((Obj.lookup vs "context").bind Val.asObj)
    match (Obj.lookup vs "record").bind Val.asObj with
    | some record =>
      optAssign (optAssign d ((Obj.lookup record "context").bind Val.asObj))
        ((Obj.lookup record "extra").bind Val.asObj)
    | none => d

/-- The "Additional Data" map of `formatSingleEvent`: `Object.assign` of
`context`, then `contexts`, then `extra` (each only when non-empty), then —
unconditionally — the stack-frame vars fallback. -/
def additionalData (ev : SEvent) : Obj :=
  framesVarsFallback
    (guardedAssign (guardedAssign (guardedAssign [] ev.context) ev.contexts) ev.extra) ev

/-- The "Error Overview" block of `formatSingleEvent`. -/
def overviewSection (opts : FormatOptions) (ev : SEvent) : String :=
  createHeader opts "Error Overview" 2 ++
  createList opts
    [createBold opts "Title" ++ ": " ++ jsOrD (jsOrOpt ev.title ev.metadataTitle) "N/A",
     createBold opts "Platform" ++ ": " ++ jsOrD ev.platform "N/A",
     createBold opts "Date" ++ ": " ++ tmplStr ev.dateCreated,
     createBold opts "Culprit" ++ ": " ++ jsOrD ev.culprit "N/A"]

/-- The fixed whitelist `importantTags` of `formatSingleEvent`. -/
def importantTags : List String :=
  ["environment", "level", "release", "server_name", "runtime"]

/-- The "Environment" block of `formatSingleEvent`: the header is emitted
whenever the event has at least one tag; the tag table/list is emitted only
when at least one tag key is in the whitelist. -/
def environmentSection (opts : FormatOptions) (ev : SEvent) : String :=
  match ev.tags with
  | none => ""
  | some tags =>
    if tags.length > 0 then
      let filteredTags := tags.filter (fun tag => importantTags.contains tag.key)
      createHeader opts "Environment" 2 ++
      (if filteredTags.length > 0 then
        if isMarkdown opts then
          createTable opts ["Key", "Value"] (filteredTags.map (fun tag => [tag.key, tag.value]))
        else
          createList opts (filteredTags.map (fun tag => tag.key ++ ": " ++ tag.value))
      else "")
    else ""

/-- The "Additional Data" block of `formatSingleEvent`. -/
def additionalDataSection (opts : FormatOptions) (ev : SEvent) : String :=
  let ad := additionalData ev
  if ad.length > 0 then
    createHeader opts "Additional Data" 2 ++
    "```json\n" ++ jsonStringify 0 (Val.obj ad) ++ "\n```\n\n"
  else ""

/-- The frame subset shown by the stack-trace section.  Frames are tagged
with their index up front: the source labels a shown frame with
`frames.indexOf(frame) + 1`, and JS `indexOf` uses reference equality over
distinct parsed objects, which is exactly the frame's own position. -/
def frameSelection (frames : List Frame) : List (Nat × Frame) :=
  let tagged := frames.enum
  let appFrames := tagged.filter (fun p => p.2.inApp)
  if appFrames.length > 0 then takeLast 5 appFrames else takeLast 10 tagged

/-- One rendered frame of the stack-trace section (`p.1` is the frame's
position in the full frame list, so `p.1 + 1` is `frames.indexOf(frame) + 1`). -/
def renderFrame (p : Nat × Frame) : String :=
  let frame := p.2
  "**Frame " ++ toString (p.1 + 1) ++ "**: `" ++ tmplStr frame.filename ++ ":" ++
    tmplInt frame.lineNo ++ "`\n" ++
  "- Function: `" ++ jsOrD frame.function "N/A" ++ "`\n" ++
  (if frame.context.length > 0 then
    match frame.context.find? (fun line => some line.1 == frame.lineNo) with
    | some contextLine => "- Code: `" ++ contextLine.2.trim ++ "`\n"
    | none => ""
  else "") ++
  "\n"

/-- The "Stack Trace" block of `formatSingleEvent`. -/
def stackTraceSection (opts : FormatOptions) (ev : SEvent) : String :=
  match stacktraceFrames ev with
  | none => ""
  | some frames =>
    let appFramesLength := (frames.filter (fun frame => frame.inApp)).length
    let framesToShow := frameSelection frames
    createHeader opts "Stack Trace" 2 ++
    String.join (framesToShow.map renderFrame) ++
    (if appFramesLength < frames.length then
      "*Showing " ++ toString framesToShow.length ++ " most relevant frames (" ++
        toString frames.length ++ " total)*\n\n"
    else "")

/-- The "User Information" block of `formatSingleEvent`. -/
def userSection (opts : FormatOptions) (ev : SEvent) : String :=
  match ev.user with
  | none => ""
  | some u =>
    if (if truthyStr u.id then 1 else 0) + (if truthyStr u.email then 1 else 0) +
       (if truthyStr u.username then 1 else 0) +
       (if truthyStr u.ip_address then 1 else 0) > 0 then
      let userDetails :=
        (if truthyStr u.id then [createBold opts "ID" ++ ": " ++ tmplStr u.id] else []) ++
        (if truthyStr u.email then [createBold opts "Email" ++ ": " ++ tmplStr u.email] else []) ++
        (if truthyStr u.username then [createBold opts "Username" ++ ": " ++ tmplStr u.username] else []) ++
        (if truthyStr u.ip_address then [createBold opts "IP Address" ++ ": " ++ tmplStr u.ip_address] else [])
      createHeader opts "User Information" 2 ++
      (if userDetails.length > 0 then createList opts userDetails else "")
    else ""

/-- `IssueFormatter.formatSingleEvent`: the fixed concatenation of the
sections above (the source appends them to `output` in this order). -/
def formatSingleEvent (opts : FormatOptions) (ev : SEvent) (eventId : String) : String :=
  createHeader opts ("Event Details: " ++ eventId) ++
  overviewSection opts ev ++
  environmentSection opts ev ++
  additionalDataSection opts ev ++
  stackTraceSection opts ev ++
  userSection opts ev

/-- The truthy-field detail lines of a user block (shared shape of the
detailed event list and single-event user sections). -/
def userDetailLines (opts : FormatOptions) (u : UserInfo) : List String :=
  (if truthyStr u.id then [createBold opts "ID" ++ ": " ++ tmplStr u.id] else []) ++
  (if truthyStr u.email then [createBold opts "Email" ++ ": " ++ tmplStr u.email] else []) ++
  (if truthyStr u.username then [createBold opts "Username" ++ ": " ++ tmplStr u.username] else []) ++
  (if truthyStr u.ip_address then [createBold opts "IP Address" ++ ": " ++ tmplStr u.ip_address] else [])

/-- `IssueFormatter.formatDetailedEventList`. -/
def formatDetailedEventList (opts : FormatOptions) (events : List SEvent)
    (issueTitle : String) : String :=
  let output := createHeader opts ("Events for " ++ issueTitle)
  let output :=
    if isMarkdown opts then
      output ++ createTable opts ["Event ID", "Title", "Platform", "Date Created", "Location"]
        (events.map (fun event =>
          [cellStr (jsOrOpt event.eventID event.id),
           jsOrD event.title "N/A",
           jsOrD event.platform "N/A",
           jsOrD event.dateCreated "N/A",
           jsOrD event.location "N/A"]))
    else output
  let output := output ++ createHeader opts "Event Details" 2
  let output := events.enum.foldl (fun acc p =>
    let event := p.2
    acc ++
    createHeader opts ("Event " ++ toString (p.1 + 1) ++ ": " ++
      tmplStr (jsOrOpt (jsOrOpt event.title event.eventID) event.id)) 3 ++
    createList opts
      [createBold opts "Event ID" ++ ": " ++ tmplStr (jsOrOpt event.eventID event.id),
       createBold opts "Date Created" ++ ": " ++ tmplStr event.dateCreated,
       createBold opts "Platform" ++ ": " ++ jsOrD event.platform "N/A",
       createBold opts "Type" ++ ": " ++ jsOrD (jsOrOpt event.eventType event.type) "N/A",
       createBold opts "Location" ++ ": " ++ jsOrD event.location "N/A",
       createBold opts "Culprit" ++ ": " ++ jsOrD event.culprit "N/A"] ++
    (match event.tags with
     | some tags =>
       if tags.length > 0 then
         createHeader opts "Tags" 4 ++
         (if isMarkdown opts then
           createTable opts ["Key", "Value"] (tags.map (fun tag => [tag.key, tag.value]))
         else
           tags.foldl (fun a tag => a ++ tag.key ++ ": " ++ tag.value ++ "\n") "" ++ "\n")
       else ""
     | none => "") ++
    (match event.user with
     | some u =>
       createHeader opts "User Information" 4 ++
       (let userDetails := userDetailLines opts u
        if userDetails.length > 0 then createList opts userDetails else "")
     | none => "") ++
    createSeparator opts) output
  output ++ createHeader opts "Summary" 2 ++ "Total Events: " ++ toString events.length ++ "\n"

/-- `IssueFormatter.formatSummaryEventList`. -/
def formatSummaryEventList (opts : FormatOptions) (events : List SEvent)
    (issueTitle : String) : String :=
  let output := createHeader opts ("Events for " ++ issueTitle)
  let items := events.map (fun event =>
    let level := jsOrD (((event.tags.getD []).find? (fun tag => tag.key == "level")).map Tag.value) "unknown"
    let environment := jsOrD (((event.tags.getD []).find? (fun tag => tag.key == "environment")).map Tag.value) "unknown"
    createBold opts "Event ID" ++ ": " ++ tmplStr (jsOrOpt event.eventID event.id) ++
    "\n  - " ++ "Title: " ++ jsOrD event.title "N/A" ++
    "\n  - " ++ "Level: " ++ level ++ ", Environment: " ++ environment ++
      ", Platform: " ++ jsOrD event.platform "N/A" ++
    "\n  - " ++ "Date: " ++ tmplStr event.dateCreated)
  output ++ createList opts items ++ "Total Events: " ++ toString events.length

/-- `IssueFormatter.formatEventList`. -/
def formatEventList (opts : FormatOptions) (events : List SEvent) (issueTitle : String) : String :=
  if events.length = 0 then
    createHeader opts ("Events for " ++ issueTitle) ++ "No events found for this issue.\n"
  else if isDetailed opts then formatDetailedEventList opts events issueTitle
  else formatSummaryEventList opts events issueTitle

/- ------------------------------------------------------------------ -/
/- index.ts — extract_issue_context_data handler                       -/
/- ------------------------------------------------------------------ -/

/-- The handler's fixed source list for one event (an event is its JS object
of own properties here): `[event.contexts, event.extra, event.context, event]`.
A non-object property exposes no fields and a missing/falsy one is skipped,
which coincide observably. -/
def extractSources (e : Obj) : List (Option Obj) :=
  [(Obj.lookup e "contexts").bind Val.asObj,
   (Obj.lookup e "extra").bind Val.asObj,
   (Obj.lookup e "context").bind Val.asObj,
   some e]

/-- First source in order defining the field (`source && source[field] !==
undefined`, then `break`). -/
def firstDefined : List (Option Obj) → String → Option Val
  | [], _ => none
  | none :: rest, f => firstDefined rest f
  | some o :: rest, f =>
    match Obj.lookup o f with
    | some v => some v
    | none => firstDefined rest f

/-- The pre-populated output record `{event_id: event.id, timestamp:
event.dateCreated}`; a key whose value is `undefined` is both invisible to
the `=== undefined` test and dropped by `JSON.stringify`, so it is omitted. -/
def preRecord (e : Obj) : Obj :=
  (match Obj.lookup e "id" with
   | some v => [("event_id", v)]
   | none => []) ++
  (match Obj.lookup e "dateCreated" with
   | some v => [("timestamp", v)]
   | none => [])

/-- One iteration of `extract_fields.forEach` on one event: accumulated
output record plus the `(field, String(value))` additions made to the
per-field unique-value sets, in order. -/
def stepFn (srcs : List (Option Obj)) (acc : Obj × List (String × String))
    (field : String) : Obj × List (String × String) :=
  if (Obj.lookup acc.1 field).isSome then acc
  else
    match firstDefined srcs field with
    | some v => (acc.1 ++ [(field, v)], acc.2 ++ [(field, jsToString v)])
    | none => acc

/-- The whole `extract_fields.forEach` loop. -/
def processFields (srcs : List (Option Obj)) (acc : Obj × List (String × String))
    (fields : List String) : Obj × List (String × String) :=
  fields.foldl (stepFn srcs) acc

/-- The finished `eventData` record of one event. -/
def finalRecord (fields : List String) (e : Obj) : Obj :=
  (processFields (extractSources e) (preRecord e, []) fields).1

/-- The `(field, String(value))` pairs the handler recorded for one event. -/
def resolvedFields (fields : List String) (e : Obj) : List (String × String) :=
  (processFields (extractSources e) (preRecord e, []) fields).2

/-- `eventData[field] !== undefined` for some requested field (`hasData`). -/
def recordHasData (fields : List String) (r : Obj) : Bool :=
  fields.any (fun field => (Obj.lookup r field).isSome)

/-- All unique-set additions of the run, events outer, fields inner. -/
def allAdds (events : List Obj) (fields : List String) : List (String × String) :=
  events.flatMap (resolvedFields fields)

/-- The stringified values recorded for one field across all events. -/
def assignedValues (events : List Obj) (fields : List String) (f : String) : List String :=
  (allAdds events fields).filterMap (fun p => if p.1 = f then some p.2 else none)

/-- `Set.add`: keep insertion order, drop an already-present element. -/
def setInsert (l : List String) (s : String) : List String :=
  if s ∈ l then l else l ++ [s]

/-- `Array.from(uniqueValues[field]).sort()` (JS default sort on strings is
lexicographic). -/
def uniqueValuesFor (events : List Obj) (fields : List String) (f : String) : List String :=
  List.insertionSort (fun a b => a ≤ b) ((assignedValues events fields f).foldl setInsert [])

/-- The JSON result shape of `extract_issue_context_data` (`unique_values`
as a function of the field name; the source builds it for exactly the
requested fields, and no other field can have recorded values). -/
structure ExtractResult : Type where
  extracted_data : List Obj
  unique_values : String → List String
  total_events : Nat
  events_with_data : Nat

/-- The `extract_issue_context_data` aggregation over fetched events. -/
def extractIssueContextData (events : List Obj) (fields : List String) : ExtractResult :=
  let records := events.map (finalRecord fields)
  let kept := records.filter (recordHasData fields)
  { extracted_data := kept
    unique_values := fun f => uniqueValuesFor events fields f
    total_events := events.length
    events_with_data := kept.length }

/- ------------------------------------------------------------------ -/
/- errorHandler.ts and the list_projects tool handler                  -/
/- ------------------------------------------------------------------ -/

/-- A tool response: one text content entry plus the error flag (`isError`
is absent-meaning-false on success responses). -/
structure ToolResponse : Type where
  text : String
  isError : Bool
deriving DecidableEq, Repr

/-- `ErrorHandler.handleApiError` (the `console.error` side effect carries no
information into the returned value). -/
def handleApiError (message context : String) : ToolResponse :=
  { text := "Error in " ++ context ++ ": " ++ message, isError := true }

/-- `ErrorHandler.handleValidationError`. -/
def handleValidationError (message : String) : ToolResponse :=
  { text := "Validation error: " ++ message, isError := true }

/-- `ErrorHandler.handleNotFoundError`. -/
def handleNotFoundError (resource identifier : String) : ToolResponse :=
  { text := resource ++ " not found: " ++ identifier, isError := true }

/-- An HTTP response as `SentryApiClient.get` sees it (`body` is
`response.text()` on failure / the JSON payload on success). -/
structure ApiResponse : Type where
  ok : Bool
  status : Nat
  statusText : String
  body : String
deriving DecidableEq, Repr

/-- `SentryApiClient.get`: non-ok responses throw
`API request failed: {status} {statusText} - {errorText}`; a failed fetch
itself surfaces as the thrown error it produced.  Exceptions are modelled as
the `Except.error` branch. -/
def sentryGet (fetched : Except String ApiResponse) : Except String String :=
  match fetched with
  | .error e => .error e
  | .ok response =>
    if response.ok then .ok response.body
    else .error ("API request failed: " ++ toString response.status ++ " " ++
                 response.statusText ++ " - " ++ response.body)

/-- The `list_projects` tool handler: one fetch, formatting on success, and
`ErrorHandler.handleApiError(error, "list_projects")` on any failure — the
handler returns a value in both branches, so no exception crosses the tool
boundary, and the fetch outcome is consumed exactly once (no retry).
`parse` stands for `response.json()` on the success payload. -/
def listProjectsHandler (opts : FormatOptions)
    (fetched : Except String ApiResponse)
    (parse : String → List SentryProject) : ToolResponse :=
  match sentryGet fetched with
  | .ok body => { text := projectFormatData opts (parse body), isError := false }
  | .error e => handleApiError e "list_projects"

/- ------------------------------------------------------------------ -/
/- Spec-side definitions (written from the claims' words, to be         -/
/- compared with the source-translated definitions above)              -/
/- ------------------------------------------------------------------ -/

/-- The fallback maps contributed by that frame, in merge order:
`vars.context`, `vars.record.context`, `vars.record.extra` (a missing or
non-object link contributes the empty map). -/
def fallbackSourceList (ev : SEvent) : List Obj :=
  match lastFrameVars ev with
  | none => []
  | some vs =>
    let record := ((Obj.lookup vs "record").bind Val.asObj).getD []
    [((Obj.lookup vs "context").bind Val.asObj).getD [],
     ((Obj.lookup record "context").bind Val.asObj).getD [],
     ((Obj.lookup record "extra").bind Val.asObj).getD []]

/-- Amended claim C1, as a definition: one uniform merge of `context`, then
`contexts`, then `extra`, then the frame-vars fallback maps, later sources
overwriting earlier keys — the fallback applied unconditionally. -/
def additionalDataMerged (ev : SEvent) : Obj :=
  ([(ev.context).getD [], (ev.contexts).getD [], (ev.extra).getD []] ++
    fallbackSourceList ev).foldl jsAssign []

/-- Claim C1 as stated: the frame-vars fallback is merged only as a
last-resort when none of `context`/`contexts`/`extra` contributed anything
(the claim's "none of those is informative on its own"). -/
def additionalDataClaimed (ev : SEvent) : Obj :=
  let primary := ([(ev.context).getD [], (ev.contexts).getD [], (ev.extra).getD []]).foldl jsAssign []
  if primary.length > 0 then primary
  else (fallbackSourceList ev).foldl jsAssign []

/-- Claim C3 as stated: the whole Environment section, header included, is
present exactly when at least one tag key matches the whitelist, and is
built only from the matching tags. -/
def environmentSectionClaimed (opts : FormatOptions) (ev : SEvent) : String :=
  let filteredTags := ((ev.tags).getD []).filter (fun tag => importantTags.contains tag.key)
  if filteredTags.length > 0 then
    createHeader opts "Environment" 2 ++
    (if isMarkdown opts then
      createTable opts ["Key", "Value"] (filteredTags.map (fun tag => [tag.key, tag.value]))
    else
      createList opts (filteredTags.map (fun tag => tag.key ++ ": " ++ tag.value)))
  else ""

/-- A markdown table row over the given cells. -/
def mdTableRow (cells : List String) : String :=
  "| " ++ String.intercalate " | " cells ++ " |\n"

/-- A markdown header-separator row with `n` dash cells. -/
def mdSeparatorRow (n : Nat) : String :=
  "|" ++ String.intercalate "|" (List.replicate n "----") ++ "|\n"

/-- A plain table row over the given cells. -/
def plainTableRow (cells : List String) : String :=
  String.intercalate " | " cells ++ "\n"

/-- Claim C6 as stated: markdown emits header row, dash separator row sized
to the column count, then data rows; plain emits the header row as the first
row followed by the data rows, with no separator. -/
def createTableClaimed (opts : FormatOptions) (headers : List String)
    (rows : List (List String)) : String :=
  if isMarkdown opts then
    mdTableRow headers ++ mdSeparatorRow headers.length ++
      String.join (rows.map mdTableRow) ++ "\n"
  else
    plainTableRow headers ++ String.join (rows.map plainTableRow) ++ "\n"

/-- Amended claim C6: as claimed for markdown, but the plain branch emits
only the data rows — the header row is dropped entirely. -/
def createTableAmended (opts : FormatOptions) (headers : List String)
    (rows : List (List String)) : String :=
  if isMarkdown opts then
    mdTableRow headers ++ mdSeparatorRow headers.length ++
      String.join (rows.map mdTableRow) ++ "\n"
  else
    String.join (rows.map plainTableRow) ++ "\n"

/-- Amended claim C2, project part: the project formatter has no
empty-collection branch, so an empty list flows through the normal path —
a header-only markdown table (or nothing in plain detailed / an empty list
in summary) and a "Total Projects: 0" line, with no none-found message. -/
def emptyProjectsOutput (opts : FormatOptions) : String :=
  if isDetailed opts then
    createHeader opts "Sentry Projects" ++
    (if isMarkdown opts then
      "| ID | Name | Slug | Platform | Teams | Environments | Features |\n" ++
      "|----|----|----|----|----|----|----|\n\n"
    else "") ++
    createHeader opts "Summary" 2 ++ "Total Projects: 0\n"
  else
    createHeader opts "Sentry Projects" ++ "\n\n" ++ "Total Projects: 0"

/-- Claim C5 as stated, per field and event: the value of the first source
among contexts, extra, context, event-root defining the field. -/
def claimedFieldValue (e : Obj) (f : String) : Option Val :=
  firstDefined (extractSources e) f

/-- The tag rows of the Environment section, over already-filtered tags. -/
def envTagRows (opts : FormatOptions) (filteredTags : List Tag) : String :=
  if filteredTags.length > 0 then
    if isMarkdown opts then
      createTable opts ["Key", "Value"] (filteredTags.map (fun tag => [tag.key, tag.value]))
    else
      createList opts (filteredTags.map (fun tag => tag.key ++ ": " ++ tag.value))
  else ""

/-- An event with every optional field absent. -/
def emptySEvent : SEvent :=
  { id := none, eventID := none, title := none, metadataTitle := none,
    platform := none, dateCreated := none, location := none, eventType := none,
    type := none, culprit := none, tags := none, user := none, context := none,
    contexts := none, extra := none, entries := none }

/-- A minimal frame with the given filename and inApp flag. -/
def mkFrame (name : String) (app : Bool) : Frame :=
  { filename := some name, lineNo := some 1, function := none, inApp := app,
    context := [], vars := none }

/-- C1 input: `context` defines k, and the last frame's `vars.context`
redefines k. -/
def cexEventC1 : SEvent :=
  { emptySEvent with
    context := some [("k", Val.str "a")],
    entries := some
      [{ type := "stacktrace",
         data := some
           { frames := some
               [{ filename := none, lineNo := none, function := none,
                  inApp := false, context := [],
                  vars := some [("context", Val.obj [("k", Val.str "b")])] }] } }] }

/-- C3 input: one tag whose key is outside the whitelist. -/
def cexEventC3 : SEvent :=
  { emptySEvent with tags := some [{ key := "foo", value := "bar" }] }

/-- C4 inputs: three frames, the first and third in-app. -/
def cexFramesC4 : List Frame :=
  [mkFrame "a" true, mkFrame "b" false, mkFrame "c" true]

/-- C5 input: the event has an `id` and its `contexts` also defines a field
named `event_id`. -/
def cexEventC5 : Obj :=
  [("id", Val.str "e1"), ("contexts", Val.obj [("event_id", Val.str "X")])]

/-- C5 witness input: `contexts` defines the requested field. -/
def wEventC5 : Obj :=
  [("contexts", Val.obj [("roomId", Val.str "42")])]

/-- C8 input: one event with an `id` and nothing else, extracted for the
field name `event_id`. -/
def cexEventsC8 : List Obj :=
  [[("id", Val.str "e1")]]

/-- C10 witness input. -/
def wEventsC10 : List Obj :=
  [[("id", Val.str "e1"), ("dateCreated", Val.str "2024-01-01T00:00:00Z"),
    ("contexts", Val.obj [("roomId", Val.str "42")])]]

/- ------------------------------------------------------------------ -/
/- Helper lemmas                                                       -/
/- ------------------------------------------------------------------ -/

theorem optionOrElse_idem {α : Type} (a b : Option α) : ((a <|> b) <|> b) = (a <|> b) := by
  cases a <;> cases b <;> rfl

theorem lookup_append (o l : Obj) (f : String) :
    Obj.lookup (o ++ l) f = (Obj.lookup o f <|> Obj.lookup l f) := by
  induction o with
  | nil => simp [Obj.lookup]
  | cons kv rest ih =>
    obtain ⟨k, v⟩ := kv
    by_cases h : f = k <;> simp [Obj.lookup, h, ih]

theorem lookup_stepFn (srcs : List (Option Obj)) (acc : Obj × List (String × String))
    (g f : String) :
    Obj.lookup (stepFn srcs acc g).1 f =
      if f = g then (Obj.lookup acc.1 f <|> firstDefined srcs f) else Obj.lookup acc.1 f := by
  unfold stepFn
  by_cases hfg : f = g
  · subst hfg
    cases hl : Obj.lookup acc.1 f with
    | some v => simp [hl]
    | none =>
      cases hd : firstDefined srcs f with
      | none => simp [hl, hd]
      | some v => simp [hl, hd, lookup_append, Obj.lookup]
  · cases hl : Obj.lookup acc.1 g with
    | some v => simp [hl, hfg]
    | none =>
      cases hd : firstDefined srcs g with
      | none => simp [hl, hd, hfg]
      | some v => simp [hl, hd, hfg, lookup_append, Obj.lookup, Ne.symm hfg]

theorem lookup_processFields (srcs : List (Option Obj)) (fields : List String) :
    ∀ (acc : Obj × List (String × String)) (f : String),
      Obj.lookup (processFields srcs acc fields).1 f =
        if f ∈ fields then (Obj.lookup acc.1 f <|> firstDefined srcs f)
        else Obj.lookup acc.1 f := by
  induction fields with
  | nil => intro acc f; simp [processFields]
  | cons g rest ih =>
    intro acc f
    have hstep : processFields srcs acc (g :: rest) =
        processFields srcs (stepFn srcs acc g) rest := rfl
    rw [hstep, ih, lookup_stepFn]
    by_cases hfg : f = g
    · subst hfg
      by_cases hfr : f ∈ rest
      · simp [hfr, optionOrElse_idem]
      · simp [hfr]
    · by_cases hfr : f ∈ rest
      · simp [hfr, hfg]
      · simp [hfr, hfg]

theorem lookup_stepFn_isSome {srcs : List (Option Obj)} {acc : Obj × List (String × String)}
    {f : String} (g : String) (hs : (Obj.lookup acc.1 f).isSome) :
    (Obj.lookup (stepFn srcs acc g).1 f).isSome := by
  rw [lookup_stepFn]
  by_cases hfg : f = g
  · cases hl : Obj.lookup acc.1 f with
    | none => rw [hl] at hs; simp at hs
    | some v => simp [hfg, hl]
  · simpa [hfg] using hs

theorem snd_stepFn_no_key {srcs : List (Option Obj)} {acc : Obj × List (String × String)}
    {f : String} (g : String) (hs : (Obj.lookup acc.1 f).isSome) :
    ∀ p ∈ (stepFn srcs acc g).2, p.1 = f → p ∈ acc.2 := by
  intro p hp hpf
  unfold stepFn at hp
  by_cases hg : (Obj.lookup acc.1 g).isSome
  · simpa [hg] using hp
  · cases hd : firstDefined srcs g with
    | none => simpa [hg, hd] using hp
    | some v =>
      rw [if_neg hg, hd] at hp
      simp only [List.mem_append, List.mem_singleton] at hp
      rcases hp with h | h
      · exact h
      · exfalso
        have hfg : f = g := by rw [← hpf, h]
        rw [hfg] at hs
        exact hg hs

theorem snd_processFields_no_key {srcs : List (Option Obj)} {f : String}
    (fields : List String) :
    ∀ (acc : Obj × List (String × String)), (Obj.lookup acc.1 f).isSome →
      ∀ p ∈ (processFields srcs acc fields).2, p.1 = f → p ∈ acc.2 := by
  induction fields with
  | nil => intro acc _ p hp _; simpa [processFields] using hp
  | cons g rest ih =>
    intro acc hs p hp hpf
    have hstep : processFields srcs acc (g :: rest) =
        processFields srcs (stepFn srcs acc g) rest := rfl
    rw [hstep] at hp
    have hs2 : (Obj.lookup (stepFn srcs acc g).1 f).isSome := lookup_stepFn_isSome g hs
    exact snd_stepFn_no_key g hs p (ih (stepFn srcs acc g) hs2 p hp hpf) hpf

theorem preRecord_event_id (e : Obj) :
    Obj.lookup (preRecord e) "event_id" = Obj.lookup e "id" := by
  unfold preRecord
  cases h1 : Obj.lookup e "id" <;> cases h2 : Obj.lookup e "dateCreated" <;>
    simp [Obj.lookup]

theorem preRecord_timestamp (e : Obj) :
    Obj.lookup (preRecord e) "timestamp" = Obj.lookup e "dateCreated" := by
  unfold preRecord
  cases h1 : Obj.lookup e "id" <;> cases h2 : Obj.lookup e "dateCreated" <;>
    simp [Obj.lookup]

theorem lookup_finalRecord (fields : List String) (e : Obj) (f : String) :
    Obj.lookup (finalRecord fields e) f =
      if f ∈ fields then (Obj.lookup (preRecord e) f <|> firstDefined (extractSources e) f)
      else Obj.lookup (preRecord e) f := by
  unfold finalRecord
  rw [lookup_processFields]

theorem resolvedFields_no_key {fields : List String} {e : Obj} {f : String}
    (hs : (Obj.lookup (preRecord e) f).isSome) :
    ∀ p ∈ resolvedFields fields e, p.1 ≠ f := by
  intro p hp hpf
  have := snd_processFields_no_key fields (preRecord e, []) hs p hp hpf
  simp at this

theorem assignedValues_eq_nil {events : List Obj} {fields : List String} {f : String}
    (h : ∀ e ∈ events, (Obj.lookup (preRecord e) f).isSome) :
    assignedValues events fields f = [] := by
  unfold assignedValues
  rw [List.filterMap_eq_nil_iff]
  intro p hp
  rcases List.mem_flatMap.mp hp with ⟨e, he, hpe⟩
  have := resolvedFields_no_key (h e he) p hpe
  simp [this]

theorem setInsert_mem (l : List String) (s x : String) :
    x ∈ setInsert l s ↔ x ∈ l ∨ x = s := by
  unfold setInsert
  by_cases h : s ∈ l
  · simp only [h, if_true]
    constructor
    · exact Or.inl
    · rintro (hx | rfl)
      · exact hx
      · exact h
  · simp [h]

theorem setInsert_nodup {l : List String} (s : String) (h : l.Nodup) :
    (setInsert l s).Nodup := by
  unfold setInsert
  by_cases hs : s ∈ l
  · simpa [hs]
  · simp [hs, List.nodup_append, h]

theorem foldl_setInsert_mem (l : List String) :
    ∀ (acc : List String) (x : String),
      x ∈ l.foldl setInsert acc ↔ x ∈ acc ∨ x ∈ l := by
  induction l with
  | nil => intro acc x; simp
  | cons s rest ih =>
    intro acc x
    rw [List.foldl_cons, ih, setInsert_mem]
    constructor
    · rintro ((hx | rfl) | hx)
      · exact Or.inl hx
      · exact Or.inr (List.mem_cons_self _ _)
      · exact Or.inr (List.mem_cons_of_mem _ hx)
    · rintro (hx | hx)
      · exact Or.inl (Or.inl hx)
      · rcases List.mem_cons.mp hx with rfl | hx
        · exact Or.inl (Or.inr rfl)
        · exact Or.inr hx

theorem foldl_setInsert_nodup (l : List String) :
    ∀ (acc : List String), acc.Nodup → (l.foldl setInsert acc).Nodup := by
  induction l with
  | nil => intro acc h; simpa
  | cons s rest ih =>
    intro acc h
    exact ih _ (setInsert_nodup s h)

theorem length_filter_eq_iff {α : Type} (p : α → Bool) (l : List α) :
    (l.filter p).length = l.length ↔ ∀ a ∈ l, p a := by
  constructor
  · intro h
    exact List.filter_eq_self.mp ((List.filter_sublist l).eq_of_length h)
  · intro h
    rw [List.filter_eq_self.mpr h]

theorem string_join_cons (x : String) (l : List String) :
    String.join (x :: l) = x ++ String.join l := by
  have haux : ∀ (l : List String) (s : String),
      l.foldl (fun r t => r ++ t) s = s ++ String.join l := by
    intro l
    induction l with
    | nil => intro s; simp [String.join]
    | cons t rest ih =>
      intro s
      rw [List.foldl_cons, ih]
      have : String.join (t :: rest) = t ++ String.join rest := by
        show List.foldl (fun r u => r ++ u) "" (t :: rest) = _
        rw [List.foldl_cons, ih, String.empty_append]
      rw [this, String.append_assoc]
  show List.foldl (fun r u => r ++ u) "" (x :: l) = _
  rw [List.foldl_cons, haux, String.empty_append]

theorem foldl_append_join {α : Type} (f : α → String) (l : List α) :
    ∀ init : String, l.foldl (fun acc x => acc ++ f x) init = init ++ String.join (l.map f) := by
  induction l with
  | nil => intro init; simp [String.join]
  | cons a rest ih =>
    intro init
    rw [List.foldl_cons, ih, List.map_cons, string_join_cons, String.append_assoc]

theorem map_const_replicate {α : Type} (b : String) (l : List α) :
    l.map (fun _ => b) = List.replicate l.length b := by
  induction l with
  | nil => rfl
  | cons a rest ih => simp [ih, List.replicate]

theorem enumFrom_filter_snd {α : Type} (q : α → Bool) :
    ∀ (n : Nat) (l : List α),
      ((List.enumFrom n l).filter (fun p => q p.2)).map Prod.snd = l.filter q := by
  intro n l
  induction l generalizing n with
  | nil => rfl
  | cons a t ih =>
    rw [List.enumFrom_cons]
    by_cases h : q a <;> simp [List.filter_cons, h, ih]

theorem map_takeLast {α β : Type} (f : α → β) (n : Nat) (l : List α) :
    (takeLast n l).map f = takeLast n (l.map f) := by
  unfold takeLast
  rw [List.map_drop, List.length_map]

theorem mem_takeLast {α : Type} {n : Nat} {l : List α} {x : α}
    (h : x ∈ takeLast n l) : x ∈ l :=
  List.mem_of_mem_drop h

theorem createHeader_ne_empty (opts : FormatOptions) (title : String) (level : Nat) :
    createHeader opts title level ≠ "" := by
  intro h
  have hl := congrArg String.length h
  unfold createHeader at hl
  by_cases hmd : isMarkdown opts <;>
    simp only [hmd, if_true, if_false, Bool.false_eq_true,
      String.length_append] at hl <;>
    simp at hl <;>
    exact absurd hl.2 (by decide)

theorem jsAssign_nil (d : Obj) : jsAssign d [] = d := rfl

theorem optAssign_eq (d : Obj) (o : Option Obj) :
    optAssign d o = jsAssign d (o.getD []) := by
  cases o <;> rfl

theorem guardedAssign_eq (d : Obj) (o : Option Obj) :
    guardedAssign d o = jsAssign d (o.getD []) := by
  cases o with
  | none => rfl
  | some c =>
    cases c with
    | nil => rfl
    | cons kv rest => simp [guardedAssign]

theorem framesVarsFallback_eq (d : Obj) (ev : SEvent) :
    framesVarsFallback d ev = (fallbackSourceList ev).foldl jsAssign d := by
  unfold framesVarsFallback fallbackSourceList
  cases lastFrameVars ev with
  | none => rfl
  | some vs =>
    simp only [List.foldl_cons, List.foldl_nil]
    cases hrec : (Obj.lookup vs "record").bind Val.asObj with
    | none =>
      simp [optAssign_eq, Obj.lookup, jsAssign_nil]
    | some record =>
      simp only [optAssign_eq, Option.getD_some]

theorem additionalData_eq_merged (ev : SEvent) :
    additionalData ev = additionalDataMerged ev := by
  unfold additionalData additionalDataMerged
  rw [framesVarsFallback_eq, List.foldl_append]
  simp only [List.foldl_cons, List.foldl_nil, guardedAssign_eq]

theorem string_length_pos_of_ne_empty {s : String} (h : s ≠ "") : 0 < s.length := by
  cases s with
  | mk data =>
    cases data with
    | nil => exact absurd rfl h
    | cons c cs => simp [String.length]

theorem append_ne_empty_left (a b : String) (ha : a ≠ "") : a ++ b ≠ "" := by
  intro h
  have hlen := congrArg String.length h
  rw [String.length_append, String.length_empty] at hlen
  have hpos := string_length_pos_of_ne_empty ha
  omega

theorem foldl_table_rows (rows : List (List String)) :
    ∀ init : String,
      rows.foldl (fun acc row => acc ++ "| " ++ String.intercalate " | " row ++ " |\n") init =
        init ++ String.join (rows.map (fun row =>
          "| " ++ String.intercalate " | " row ++ " |\n")) := by
  induction rows with
  | nil => intro init; simp [String.join]
  | cons r rest ih =>
    intro init
    rw [List.foldl_cons, ih, List.map_cons, string_join_cons]
    simp [String.append_assoc]

theorem foldl_plain_rows (rows : List (List String)) :
    ∀ init : String,
      rows.foldl (fun acc row => acc ++ String.intercalate " | " row ++ "\n") init =
        init ++ String.join (rows.map (fun row => String.intercalate " | " row ++ "\n")) := by
  induction rows with
  | nil => intro init; simp [String.join]
  | cons r rest ih =>
    intro init
    rw [List.foldl_cons, ih, List.map_cons, string_join_cons]
    simp [String.append_assoc]

/- ------------------------------------------------------------------ -/
/- Claim theorems                                                      -/
/- ------------------------------------------------------------------ -/

/-- Claim C1, counterexample: the claim says the stack-frame `vars` fallback
is merged "only as a last-resort fallback when none of context/contexts/extra
is informative on its own".  On an event whose `context` defines `k` and whose
last frame has non-empty `vars` with `vars.context` redefining `k`, the code
merges the frame vars anyway and they overwrite `context`'s value, so the
rendered Additional Data map differs from the claimed merge. -/
theorem claim_C1_counterexample :
    additionalData cexEventC1 = [("k", Val.str "b")] ∧
    additionalDataClaimed cexEventC1 = [("k", Val.str "a")] ∧
    additionalData cexEventC1 ≠ additionalDataClaimed cexEventC1 := by
  refine ⟨rfl, rfl, ?_⟩
  intro h
  have hk : Obj.lookup (additionalData cexEventC1) "k" =
      Obj.lookup (additionalDataClaimed cexEventC1) "k" := by rw [h]
  have hb : Obj.lookup (additionalData cexEventC1) "k" = some (Val.str "b") := rfl
  have ha : Obj.lookup (additionalDataClaimed cexEventC1) "k" = some (Val.str "a") := rfl
  rw [hb, ha] at hk
  exact absurd (Val.str.inj (Option.some.inj hk)) (by decide)

/-- Claim C1, amended: the Additional Data map is the merge, in order, of
`context`, `contexts`, `extra`, and then — unconditionally, not only as a
last resort — `vars.context`, `vars.record.context`, `vars.record.extra` of
the last stack frame (scanning from the end) with a non-empty `vars` map,
later sources overwriting earlier keys; the section is emitted iff the merged
map is non-empty. -/
theorem claim_C1_amended (opts : FormatOptions) (ev : SEvent) :
    additionalData ev = additionalDataMerged ev ∧
    (additionalDataSection opts ev = "" ↔ additionalData ev = []) := by
  refine ⟨additionalData_eq_merged ev, ?_⟩
  unfold additionalDataSection
  by_cases h : 0 < (additionalData ev).length
  · simp only [h, if_true]
    constructor
    · intro hcontra
      exact absurd hcontra
        (append_ne_empty_left _ _
          (append_ne_empty_left _ _
            (append_ne_empty_left _ _ (createHeader_ne_empty opts "Additional Data" 2))))
    · intro hnil
      rw [hnil] at h
      simp at h
  · have hnil : additionalData ev = [] := by
      rcases hne : additionalData ev with _ | ⟨kv, rest⟩
      · rfl
      · rw [hne] at h; simp at h
    simp [hnil]

/-- Claim C2, counterexample: for an empty project collection the claim says
the table/list building primitives are never invoked and a fixed "none found"
message is emitted.  In detailed markdown the project formatter instead runs
the normal path: its output is literally header + `createTable` applied to the
empty row list (whose header and separator rows are visible in the output) +
a "Total Projects: 0" summary, and no none-found message exists. -/
theorem claim_C2_counterexample :
    projectFormatData ⟨FormatType.markdown, ViewType.detailed⟩ [] =
      createHeader ⟨FormatType.markdown, ViewType.detailed⟩ "Sentry Projects" ++
      createTable ⟨FormatType.markdown, ViewType.detailed⟩ projectTableHeaders [] ++
      createHeader ⟨FormatType.markdown, ViewType.detailed⟩ "Summary" 2 ++
      "Total Projects: 0\n" ∧
    createTable ⟨FormatType.markdown, ViewType.detailed⟩ projectTableHeaders [] =
      "| ID | Name | Slug | Platform | Teams | Environments | Features |\n" ++
      "|----|----|----|----|----|----|----|\n\n" ∧
    projectFormatData ⟨FormatType.markdown, ViewType.detailed⟩ [] =
      "# Sentry Projects\n\n| ID | Name | Slug | Platform | Teams | Environments | Features |\n" ++
      "|----|----|----|----|----|----|----|\n\n## Summary\n\nTotal Projects: 0\n" :=
  ⟨rfl, rfl, rfl⟩

/-- Claim C2, amended: empty issue and event collections short-circuit to
header + fixed none-found message (no table/list building), but the project
formatter has no empty-collection branch: an empty project list flows through
the normal table/list path and ends in "Total Projects: 0" with no none-found
message, in every output mode and detail level. -/
theorem claim_C2_amended (opts : FormatOptions) (projectSlug issueTitle : String) :
    formatIssueList opts [] projectSlug =
      createHeader opts ("Issues for Project: " ++ projectSlug) ++
        "No issues found for this project.\n" ∧
    formatEventList opts [] issueTitle =
      createHeader opts ("Events for " ++ issueTitle) ++ "No events found for this issue.\n" ∧
    projectFormatData opts [] = emptyProjectsOutput opts := by
  refine ⟨rfl, rfl, ?_⟩
  obtain ⟨fmt, view⟩ := opts
  cases fmt <;> cases view <;> rfl

/-- Claim C3, counterexample: the claim says the Environment section,
including its header, is omitted entirely when no tag matches the whitelist.
On an event with one tag whose key `foo` is outside the whitelist, the code
still emits the bare "Environment" header (the header is appended before the
whitelist filter runs), while the claimed rendering is empty. -/
theorem claim_C3_counterexample :
    environmentSection ⟨FormatType.markdown, ViewType.detailed⟩ cexEventC3 =
      "## Environment\n\n" ∧
    environmentSectionClaimed ⟨FormatType.markdown, ViewType.detailed⟩ cexEventC3 = "" ∧
    (([({ key := "foo", value := "bar" } : Tag)]).filter
      (fun tag => importantTags.contains tag.key)) = [] ∧
    ("## Environment\n\n" : String) ≠ "" := by
  refine ⟨?_, rfl, by decide, by decide⟩
  show createHeader ⟨FormatType.markdown, ViewType.detailed⟩ "Environment" 2 ++ "" = _
  rfl

/-- Claim C3, amended: the Environment header is emitted whenever the event
has at least one tag (whether or not any key matches the whitelist); the tag
rows are built only from tags whose key is in the fixed whitelist and are
empty when none match; the whole section, header included, is absent exactly
when the event has no tags at all. -/
theorem claim_C3_amended (opts : FormatOptions) (ev : SEvent) :
    environmentSection opts ev =
      (if 0 < ((ev.tags).getD []).length then
        createHeader opts "Environment" 2 ++
          envTagRows opts
            (((ev.tags).getD []).filter (fun tag => importantTags.contains tag.key))
      else "") ∧
    (environmentSection opts ev = "" ↔ ((ev.tags).getD []).length = 0) := by
  have hsec : environmentSection opts ev =
      (if 0 < ((ev.tags).getD []).length then
        createHeader opts "Environment" 2 ++
          envTagRows opts
            (((ev.tags).getD []).filter (fun tag => importantTags.contains tag.key))
      else "") := by
    cases htags : ev.tags with
    | none => simp [environmentSection, htags]
    | some tags =>
      cases tags with
      | nil => simp [environmentSection, htags]
      | cons t rest =>
        simp only [environmentSection, htags, Option.getD_some, envTagRows,
          List.length_cons, Nat.succ_pos, if_true, Nat.zero_lt_succ]
  refine ⟨hsec, ?_⟩
  rw [hsec]
  by_cases h : 0 < ((ev.tags).getD []).length
  · simp only [h, if_true]
    constructor
    · intro hcontra
      exact absurd hcontra
        (append_ne_empty_left _ _ (createHeader_ne_empty opts "Environment" 2))
    · omega
  · simp only [h, if_false]
    simp only [true_iff, eq_self_iff_true]
    omega

/-- Claim C4: if at least one frame is in-app, the shown frames are exactly
the last five in-app frames (all of them when fewer than five exist, which is
what `slice(-5)` yields); otherwise the last ten frames overall; and every
shown frame carries its own position in the original full frame list, so the
rendered label `Frame (position + 1)` is the 1-based original position, not
the position in the filtered subset. -/
theorem claim_C4_frame_selection (frames : List Frame) :
    (0 < (frames.filter (fun frame => frame.inApp)).length →
      (frameSelection frames).map Prod.snd =
        takeLast 5 (frames.filter (fun frame => frame.inApp))) ∧
    ((frames.filter (fun frame => frame.inApp)).length = 0 →
      (frameSelection frames).map Prod.snd = takeLast 10 frames) ∧
    (∀ p ∈ frameSelection frames, frames[p.1]? = some p.2) ∧
    (∀ p ∈ frameSelection frames, ∃ rest : String,
      renderFrame p = "**Frame " ++ (toString (p.1 + 1) ++ ("**: `" ++ rest))) := by
  have hsnd : (frames.enum.filter (fun p => p.2.inApp)).map Prod.snd =
      frames.filter (fun frame => frame.inApp) := by
    rw [List.enum]
    exact enumFrom_filter_snd (fun frame => frame.inApp) 0 frames
  have hlen : (frames.enum.filter (fun p => p.2.inApp)).length =
      (frames.filter (fun frame => frame.inApp)).length := by
    rw [← hsnd, List.length_map]
  refine ⟨?_, ?_, ?_, ?_⟩
  · intro h
    unfold frameSelection
    rw [if_pos (by rw [hlen]; exact h)]
    rw [map_takeLast, hsnd]
  · intro h
    unfold frameSelection
    rw [if_neg (by rw [hlen]; omega)]
    rw [map_takeLast, List.enum_map_snd]
  · intro p hp
    have hpe : p ∈ frames.enum := by
      unfold frameSelection at hp
      by_cases hc : 0 < (frames.enum.filter (fun q => q.2.inApp)).length
      · rw [if_pos hc] at hp
        exact List.mem_of_mem_filter (mem_takeLast hp)
      · rw [if_neg hc] at hp
        exact mem_takeLast hp
    exact List.mem_enum_iff_getElem?.mp hpe
  · intro p _
    refine ⟨tmplStr p.2.filename ++ (":" ++ (tmplInt p.2.lineNo ++ ("`\n" ++
      ("- Function: `" ++ (jsOrD p.2.function "N/A" ++ ("`\n" ++
      ((if 0 < p.2.context.length then
          match p.2.context.find? (fun line => some line.1 == p.2.lineNo) with
          | some contextLine => "- Code: `" ++ contextLine.2.trim ++ "`\n"
          | none => ""
        else "") ++ "\n"))))))), ?_⟩
    simp only [renderFrame, String.append_assoc]

/-- Claim C4, witness: three frames with the first and third in-app; the
selection keeps both in-app frames (the last five of them). -/
theorem claim_C4_witness :
    0 < (cexFramesC4.filter (fun frame => frame.inApp)).length ∧
    (frameSelection cexFramesC4).map Prod.snd =
      takeLast 5 (cexFramesC4.filter (fun frame => frame.inApp)) :=
  ⟨by decide, (claim_C4_frame_selection cexFramesC4).1 (by decide)⟩

/-- Claim C5, counterexample: the claim says every requested field resolves
to the first of contexts/extra/context/event-root that defines it.  For the
field name `event_id` on an event whose `contexts` defines `event_id := "X"`,
the pre-populated record entry `event_id := event.id` blocks resolution: the
output record keeps `"e1"` and the claimed first-source value `"X"` is never
consulted. -/
theorem claim_C5_counterexample :
    Obj.lookup (finalRecord ["event_id"] cexEventC5) "event_id" = some (Val.str "e1") ∧
    claimedFieldValue cexEventC5 "event_id" = some (Val.str "X") ∧
    Obj.lookup (finalRecord ["event_id"] cexEventC5) "event_id" ≠
      claimedFieldValue cexEventC5 "event_id" := by
  refine ⟨rfl, rfl, ?_⟩
  intro h
  have he1 : Obj.lookup (finalRecord ["event_id"] cexEventC5) "event_id" =
      some (Val.str "e1") := rfl
  have hx : claimedFieldValue cexEventC5 "event_id" = some (Val.str "X") := rfl
  rw [he1, hx] at h
  exact absurd (Val.str.inj (Option.some.inj h)) (by decide)

/-- Claim C5, amended: a requested field resolves to the first source among
contexts, extra, context, event-root that defines it — except that the
pre-populated record entries win first: the resolved value is
`preRecord[f] orElse firstDefined(sources, f)`, and a name not requested
stays at its pre-populated value (absent if none). -/
theorem claim_C5_amended (fields : List String) (e : Obj) (f : String) :
    (f ∈ fields →
      Obj.lookup (finalRecord fields e) f =
        (Obj.lookup (preRecord e) f <|> firstDefined (extractSources e) f)) ∧
    (f ∉ fields →
      Obj.lookup (finalRecord fields e) f = Obj.lookup (preRecord e) f) := by
  constructor <;> intro h <;> rw [lookup_finalRecord] <;> simp [h]

/-- Claim C5, witness: with no `id` on the event, the requested field
resolves from `contexts` exactly as first-defined-wins dictates. -/
theorem claim_C5_witness :
    Obj.lookup (finalRecord ["roomId"] wEventC5) "roomId" =
      (Obj.lookup (preRecord wEventC5) "roomId" <|>
        firstDefined (extractSources wEventC5) "roomId") :=
  (claim_C5_amended ["roomId"] wEventC5 "roomId").1 (by decide)

/-- Claim C6, counterexample: the claim says plain mode still emits the
header row as the first row.  For headers `A B` and one data row `1 2`, the
plain output is only the data row — the claimed rendering starts with
`A | B` and differs. -/
theorem claim_C6_counterexample :
    createTable ⟨FormatType.plain, ViewType.detailed⟩ ["A", "B"] [["1", "2"]] =
      "1 | 2\n\n" ∧
    createTableClaimed ⟨FormatType.plain, ViewType.detailed⟩ ["A", "B"] [["1", "2"]] =
      "A | B\n1 | 2\n\n" ∧
    ("1 | 2\n\n" : String) ≠ "A | B\n1 | 2\n\n" := by
  refine ⟨rfl, ?_, by decide⟩
  show plainTableRow ["A", "B"] ++
    String.join ([["1", "2"]].map plainTableRow) ++ "\n" = _
  rfl

/-- Claim C6, amended: markdown emits the header row, a dash separator row
with exactly as many cells as there are columns, then the data rows; plain
mode emits only the pipe-joined data rows — the header row is dropped
entirely, not emitted first. -/
theorem claim_C6_amended (opts : FormatOptions) (headers : List String)
    (rows : List (List String)) :
    createTable opts headers rows = createTableAmended opts headers rows := by
  unfold createTable createTableAmended
  by_cases h : isMarkdown opts
  · simp only [h, if_true]
    rw [foldl_table_rows]
    unfold mdTableRow mdSeparatorRow
    rw [map_const_replicate]
    simp only [String.append_assoc]
  · simp only [h, if_false, Bool.false_eq_true]
    rw [foldl_plain_rows]
    unfold plainTableRow
    simp only [String.append_assoc, String.empty_append]

/-- Claim C7: for any field, `unique_values[f]` is ascending-sorted, has no
duplicates, and contains exactly the stringified values the extraction
recorded for `f` across all events — i.e. it is the sorted, deduplicated
list of those values. -/
theorem claim_C7_unique_values (events : List Obj) (fields : List String) (f : String) :
    List.Sorted (fun a b => a ≤ b) ((extractIssueContextData events fields).unique_values f) ∧
    ((extractIssueContextData events fields).unique_values f).Nodup ∧
    (∀ s : String, s ∈ (extractIssueContextData events fields).unique_values f ↔
      s ∈ assignedValues events fields f) := by
  have hval : (extractIssueContextData events fields).unique_values f =
      uniqueValuesFor events fields f := rfl
  rw [hval]
  unfold uniqueValuesFor
  refine ⟨List.sorted_insertionSort _ _, ?_, ?_⟩
  · exact ((List.perm_insertionSort _ _).nodup_iff).mpr
      (foldl_setInsert_nodup _ [] List.nodup_nil)
  · intro s
    rw [List.mem_insertionSort, foldl_setInsert_mem]
    simp

/-- Claim C8, counterexample: the claim's equality condition is
"every event resolves at least one requested field".  With one event
`{id: "e1"}` and the requested field `event_id`, no field resolves from any
source (`resolvedFields` is empty), yet the event still counts as having data
through the pre-populated `event_id` entry, so `events_with_data =
total_events` holds while the claimed condition fails. -/
theorem claim_C8_counterexample :
    (extractIssueContextData cexEventsC8 ["event_id"]).events_with_data =
      (extractIssueContextData cexEventsC8 ["event_id"]).total_events ∧
    resolvedFields ["event_id"] [("id", Val.str "e1")] = [] ∧
    [("id", Val.str "e1")] ∈ cexEventsC8 :=
  ⟨rfl, rfl, List.mem_singleton.mpr rfl⟩

/-- Claim C8, amended: `events_with_data ≤ total_events` always, with
equality iff every event's output record defines at least one requested
field name — resolution through the sources, or the pre-populated
`event_id`/`timestamp` entries when those names are requested. -/
theorem claim_C8_amended (events : List Obj) (fields : List String) :
    (extractIssueContextData events fields).events_with_data ≤
      (extractIssueContextData events fields).total_events ∧
    ((extractIssueContextData events fields).events_with_data =
        (extractIssueContextData events fields).total_events ↔
      ∀ e ∈ events, recordHasData fields (finalRecord fields e)) := by
  have hewd : (extractIssueContextData events fields).events_with_data =
      ((events.map (finalRecord fields)).filter (recordHasData fields)).length := rfl
  have htot : (extractIssueContextData events fields).total_events = events.length := rfl
  rw [hewd, htot]
  constructor
  · calc ((events.map (finalRecord fields)).filter (recordHasData fields)).length
        ≤ (events.map (finalRecord fields)).length := List.length_filter_le _ _
      _ = events.length := List.length_map _ _
  · rw [show events.length = (events.map (finalRecord fields)).length from
      (List.length_map _ _).symm]
    rw [length_filter_eq_iff]
    constructor
    · intro h e he
      exact h (finalRecord fields e) (List.mem_map_of_mem _ he)
    · intro h r hr
      rcases List.mem_map.mp hr with ⟨e, he, rfl⟩
      exact h e he

theorem ewd_eq_total_of_all (events : List Obj) (fields : List String)
    (h : ∀ e ∈ events, recordHasData fields (finalRecord fields e)) :
    (extractIssueContextData events fields).events_with_data =
      (extractIssueContextData events fields).total_events := by
  have hewd : (extractIssueContextData events fields).events_with_data =
      ((events.map (finalRecord fields)).filter (recordHasData fields)).length := rfl
  have htot : (extractIssueContextData events fields).total_events = events.length := rfl
  rw [hewd, htot,
    show events.length = (events.map (finalRecord fields)).length from
      (List.length_map _ _).symm,
    length_filter_eq_iff]
  intro r hr
  rcases List.mem_map.mp hr with ⟨e, he, rfl⟩
  exact h e he

theorem extract_prepop (events : List Obj) (fields : List String) (key srcKey : String)
    (hpre : ∀ e : Obj, Obj.lookup (preRecord e) key = Obj.lookup e srcKey)
    (hk : key ∈ fields) (h : ∀ e ∈ events, (Obj.lookup e srcKey).isSome) :
    (extractIssueContextData events fields).unique_values key = [] ∧
    (extractIssueContextData events fields).events_with_data =
      (extractIssueContextData events fields).total_events := by
  constructor
  · have hnil : assignedValues events fields key = [] :=
      assignedValues_eq_nil (fun e he => by rw [hpre e]; exact h e he)
    have hval : (extractIssueContextData events fields).unique_values key =
        uniqueValuesFor events fields key := rfl
    rw [hval]
    unfold uniqueValuesFor
    rw [hnil]
    rfl
  · refine ewd_eq_total_of_all events fields (fun e he => ?_)
    unfold recordHasData
    rw [List.any_eq_true]
    refine ⟨key, hk, ?_⟩
    rw [lookup_finalRecord, if_pos hk, hpre e]
    cases hs : Obj.lookup e srcKey with
    | some v => rfl
    | none =>
      have hcontra := h e he
      rw [hs] at hcontra
      simp at hcontra

/-- Claim C10: when `event_id` is among the requested fields and every event
has a defined `id`, the pre-populated record entry blocks source resolution:
`unique_values["event_id"]` is empty, yet every event counts as having data,
so `events_with_data = total_events` regardless of the events' contents; same
for `timestamp` with `dateCreated`. -/
theorem claim_C10_prepopulated_fields (events : List Obj) (fields : List String) :
    ("event_id" ∈ fields → (∀ e ∈ events, (Obj.lookup e "id").isSome) →
      (extractIssueContextData events fields).unique_values "event_id" = [] ∧
      (extractIssueContextData events fields).events_with_data =
        (extractIssueContextData events fields).total_events) ∧
    ("timestamp" ∈ fields → (∀ e ∈ events, (Obj.lookup e "dateCreated").isSome) →
      (extractIssueContextData events fields).unique_values "timestamp" = [] ∧
      (extractIssueContextData events fields).events_with_data =
        (extractIssueContextData events fields).total_events) :=
  ⟨fun hk h => extract_prepop events fields "event_id" "id" preRecord_event_id hk h,
   fun hk h => extract_prepop events fields "timestamp" "dateCreated" preRecord_timestamp hk h⟩

/-- Claim C10, witness: one event with `id`, `dateCreated` and a `contexts`
map; requesting `event_id` and `roomId` leaves `unique_values["event_id"]`
empty while every event counts as having data. -/
theorem claim_C10_witness :
    "event_id" ∈ ["event_id", "roomId"] ∧
    (∀ e ∈ wEventsC10, (Obj.lookup e "id").isSome) ∧
    (extractIssueContextData wEventsC10 ["event_id", "roomId"]).unique_values "event_id" = [] ∧
    (extractIssueContextData wEventsC10 ["event_id", "roomId"]).events_with_data =
      (extractIssueContextData wEventsC10 ["event_id", "roomId"]).total_events := by
  refine ⟨by decide, by decide, ?_, ?_⟩
  · exact ((claim_C10_prepopulated_fields wEventsC10 ["event_id", "roomId"]).1
      (by decide) (by decide)).1
  · exact ((claim_C10_prepopulated_fields wEventsC10 ["event_id", "roomId"]).1
      (by decide) (by decide)).2

/-- Claim C9: a failed fetch or a non-success status surfaces as an
error-flagged response built by `handleApiError` — text "Error in
list_projects: <underlying message>" with `isError = true` — rather than an
exception; the handler is a total function of a single fetch outcome, so no
retry occurs, and a successful fetch is not error-flagged. -/
theorem claim_C9_error_handling (opts : FormatOptions)
    (parse : String → List SentryProject) :
    (∀ response : ApiResponse, response.ok = false →
      listProjectsHandler opts (Except.ok response) parse =
        { text := "Error in list_projects: " ++ ("API request failed: " ++
            toString response.status ++ " " ++ response.statusText ++ " - " ++ response.body),
          isError := true }) ∧
    (∀ msg : String, listProjectsHandler opts (Except.error msg) parse =
      { text := "Error in list_projects: " ++ msg, isError := true }) ∧
    (∀ response : ApiResponse, response.ok = true →
      (listProjectsHandler opts (Except.ok response) parse).isError = false) := by
  refine ⟨?_, ?_, ?_⟩
  · intro response hok
    unfold listProjectsHandler sentryGet handleApiError
    simp [hok]
  · intro msg
    rfl
  · intro response hok
    unfold listProjectsHandler sentryGet
    simp [hok]

/-- Claim C9, witness: a 500 response yields the error-flagged text naming
the operation and the underlying failure. -/
theorem claim_C9_witness :
    listProjectsHandler ⟨FormatType.markdown, ViewType.detailed⟩
        (Except.ok { ok := false, status := 500, statusText := "Internal Server Error",
                     body := "boom" }) (fun _ => []) =
      { text := "Error in list_projects: " ++ ("API request failed: " ++
          toString (500 : Nat) ++ " " ++ "Internal Server Error" ++ " - " ++ "boom"),
        isError := true } :=
  (claim_C9_error_handling ⟨FormatType.markdown, ViewType.detailed⟩ (fun _ => [])).1
    { ok := false, status := 500, statusText := "Internal Server Error", body := "boom" } rfl

/-- Sanity anchors for the date helper. -/
theorem epochToISO_values :
    epochToISO 0 = "1970-01-01T00:00:00.000Z" ∧
    epochToISO 951827696 = "2000-02-29T12:34:56.000Z" ∧
    epochToISO (-1) = "1969-12-31T23:59:59.000Z" :=
  ⟨by decide, by decide, by decide⟩

/-- Sanity anchor for the pretty-printer shape of `JSON.stringify(v, null, 2)`. -/
theorem jsonStringify_sample :
    jsonStringify 0 (Val.obj [("a", Val.num 1), ("b", Val.obj [("c", Val.str "x")])]) =
    "\x7b\n  \"a\": 1,\n  \"b\": \x7b\n    \"c\": \"x\"\n  \x7d\n\x7d" := by
  simp only [jsonStringify, jsonObj, jsonObjItems, jsonQuote, jsonEscapeChar, spaces, repeatStr]
  decide

/-- Claim C1, witness: the amended merge equation and section condition at a
concrete event. -/
theorem claim_C1_witness :
    additionalData cexEventC1 = additionalDataMerged cexEventC1 ∧
    (additionalDataSection ⟨FormatType.markdown, ViewType.detailed⟩ cexEventC1 = "" ↔
      additionalData cexEventC1 = []) :=
  claim_C1_amended ⟨FormatType.markdown, ViewType.detailed⟩ cexEventC1

/-- Claim C2, witness: the amended empty-collection behaviour at concrete
slugs in plain summary mode. -/
theorem claim_C2_witness :
    formatIssueList ⟨FormatType.plain, ViewType.summary⟩ [] "demo" =
      createHeader ⟨FormatType.plain, ViewType.summary⟩ ("Issues for Project: " ++ "demo") ++
        "No issues found for this project.\n" ∧
    formatEventList ⟨FormatType.plain, ViewType.summary⟩ [] "Issue 1" =
      createHeader ⟨FormatType.plain, ViewType.summary⟩ ("Events for " ++ "Issue 1") ++
        "No events found for this issue.\n" ∧
    projectFormatData ⟨FormatType.plain, ViewType.summary⟩ [] =
      emptyProjectsOutput ⟨FormatType.plain, ViewType.summary⟩ :=
  claim_C2_amended ⟨FormatType.plain, ViewType.summary⟩ "demo" "Issue 1"

/-- Claim C3, witness: the amended Environment-section characterization at a
concrete event. -/
theorem claim_C3_witness :
    environmentSection ⟨FormatType.markdown, ViewType.detailed⟩ cexEventC3 =
      (if 0 < ((cexEventC3.tags).getD []).length then
        createHeader ⟨FormatType.markdown, ViewType.detailed⟩ "Environment" 2 ++
          envTagRows ⟨FormatType.markdown, ViewType.detailed⟩
            (((cexEventC3.tags).getD []).filter (fun tag => importantTags.contains tag.key))
      else "") ∧
    (environmentSection ⟨FormatType.markdown, ViewType.detailed⟩ cexEventC3 = "" ↔
      ((cexEventC3.tags).getD []).length = 0) :=
  claim_C3_amended ⟨FormatType.markdown, ViewType.detailed⟩ cexEventC3

/-- Claim C6, witness: the amended table shape at concrete headers and rows. -/
theorem claim_C6_witness :
    createTable ⟨FormatType.plain, ViewType.detailed⟩ ["A", "B"] [["1", "2"]] =
      createTableAmended ⟨FormatType.plain, ViewType.detailed⟩ ["A", "B"] [["1", "2"]] :=
  claim_C6_amended ⟨FormatType.plain, ViewType.detailed⟩ ["A", "B"] [["1", "2"]]

/-- Claim C7, witness: sortedness, dedup and membership at a concrete run. -/
theorem claim_C7_witness :
    List.Sorted (fun a b => a ≤ b)
      ((extractIssueContextData [[("contexts", Val.obj [("roomId", Val.str "42")])]]
        ["roomId"]).unique_values "roomId") ∧
    ((extractIssueContextData [[("contexts", Val.obj [("roomId", Val.str "42")])]]
      ["roomId"]).unique_values "roomId").Nodup ∧
    (∀ s : String,
      s ∈ (extractIssueContextData [[("contexts", Val.obj [("roomId", Val.str "42")])]]
        ["roomId"]).unique_values "roomId" ↔
      s ∈ assignedValues [[("contexts", Val.obj [("roomId", Val.str "42")])]]
        ["roomId"] "roomId") :=
  claim_C7_unique_values [[("contexts", Val.obj [("roomId", Val.str "42")])]]
    ["roomId"] "roomId"

/-- Claim C8, witness: the amended bound and equality condition at a concrete
event list. -/
theorem claim_C8_witness :
    (extractIssueContextData cexEventsC8 ["event_id"]).events_with_data ≤
      (extractIssueContextData cexEventsC8 ["event_id"]).total_events ∧
    ((extractIssueContextData cexEventsC8 ["event_id"]).events_with_data =
        (extractIssueContextData cexEventsC8 ["event_id"]).total_events ↔
      ∀ e ∈ cexEventsC8, recordHasData ["event_id"] (finalRecord ["event_id"] e)) :=
  claim_C8_amended cexEventsC8 ["event_id"]
